import Mathlib

/-!
Verification development for the ofrak_patch_maker data model
(`ofrak_patch_maker/model.py`) and the patch-layout pipeline described in
its specification.

The Python source under scrutiny declares five frozen dataclasses
(`AssembledObject`, `LinkedExecutable`, `PatchRegionConfig`, `FEM`, `BOM`),
an exception base class `PatchMakerException`, and the `SourceFileType`
enumeration.  Python mappings are embedded as association lists with
provably unique keys (`PyDict`), Python sets as `Finset String`, Python
`int` as `Int`, and Python `Optional` as `Option`.  Construction of a
dataclass instance (including `__post_init__`) is embedded as a total
function into `Except String (entity × List String)` where the second
component collects the warnings emitted by `warnings.warn`.
-/

/-- Embedding of a Python `dict`/`Mapping` with `String` keys: an
association list in insertion order whose keys are unique, as Python
dictionaries guarantee. -/
structure PyDict (α : Type) where
  entries : List (String × α)
  keys_nodup : (entries.map Prod.fst).Nodup

/-- The keys of a dictionary, in insertion order. -/
def PyDict.keys {α : Type} (d : PyDict α) : List String :=
  d.entries.map Prod.fst

/-- The values of a dictionary, in insertion order. -/
def PyDict.values {α : Type} (d : PyDict α) : List α :=
  d.entries.map Prod.snd

/-- The keys of a dictionary as a finite set. -/
def PyDict.keysFinset {α : Type} (d : PyDict α) : Finset String :=
  d.keys.toFinset

/-- Key membership in a dictionary. -/
def PyDict.hasKey {α : Type} (d : PyDict α) (k : String) : Bool :=
  d.keys.contains k

instance {α : Type} [DecidableEq α] : DecidableEq (PyDict α) := fun a b =>
  match decEq a.entries b.entries with
  | isTrue h => isTrue (by cases a; cases b; simp only at h; subst h; rfl)
  | isFalse h => isFalse (fun he => h (congrArg PyDict.entries he))

deriving instance DecidableEq for Except

/-- Insertion into an association list with Python `dict` semantics: an
existing binding of the key is overwritten in place, a fresh key is
appended at the end. -/
def insertEntry {α : Type} : List (String × α) → String → α → List (String × α)
  | [], k, v => [(k, v)]
  | (k', v') :: rest, k, v =>
    if k' = k then (k, v) :: rest else (k', v') :: insertEntry rest k v

theorem insertEntry_keys {α : Type} (l : List (String × α)) (k : String) (v : α) :
    (insertEntry l k v).map Prod.fst =
      if k ∈ l.map Prod.fst then l.map Prod.fst else l.map Prod.fst ++ [k] := by
  induction l with
  | nil => simp [insertEntry]
  | cons hd tl ih =>
    obtain ⟨k', v'⟩ := hd
    by_cases hk : k' = k
    · subst hk
      simp [insertEntry]
    · have hk2 : ¬k = k' := fun h => hk h.symm
      by_cases hmem : k ∈ tl.map Prod.fst
      · simp [insertEntry, hk, ih, hmem, hk2]
      · simp [insertEntry, hk, ih, hmem, hk2]

theorem insertEntry_keys_nodup {α : Type} (l : List (String × α)) (k : String) (v : α)
    (h : (l.map Prod.fst).Nodup) : ((insertEntry l k v).map Prod.fst).Nodup := by
  rw [insertEntry_keys]
  by_cases hmem : k ∈ l.map Prod.fst
  · simpa [hmem] using h
  · simp only [hmem, if_false]
    refine h.append (List.nodup_singleton k) ?_
    intro a ha hb
    rw [List.mem_singleton] at hb
    subst hb
    exact hmem ha

/-- Python `d[k] = v` on the unique-key dictionary embedding. -/
def PyDict.insert {α : Type} (d : PyDict α) (k : String) (v : α) : PyDict α :=
  ⟨insertEntry d.entries k v, insertEntry_keys_nodup d.entries k v d.keys_nodup⟩

/-- The empty dictionary. -/
def PyDict.empty {α : Type} : PyDict α :=
  ⟨[], List.nodup_nil⟩

/-- A Python `dict` literal: later occurrences of a duplicate key
override earlier ones. -/
def PyDict.ofList {α : Type} (l : List (String × α)) : PyDict α :=
  l.foldl (fun d kv => d.insert kv.1 kv.2) PyDict.empty

/-- Every dictionary built from a Python dict literal has unique keys
(this is in fact an invariant of every `PyDict`, carried as a field). -/
theorem PyDict.ofList_keys_nodup {α : Type} (l : List (String × α)) :
    ((PyDict.ofList l).keys).Nodup :=
  (PyDict.ofList l).keys_nodup

/-- Modelled from the spec: `LinkableSymbolType` (imported by the source
from `ofrak_type.symbol_type`, not under src/): classification of a
symbol — function, writable data, read-only data, undefined. -/
inductive LinkableSymbolType where
  | func
  | rw_data
  | ro_data
  | undef
deriving DecidableEq, Repr

/-- Modelled from the spec: `BinFileType` (imported by the source from
`ofrak_patch_maker.toolchain.model`, not under src/): tag identifying
the binary container format of a compiled artifact. -/
inductive BinFileType where
  | elf
  | coff
  | bin
deriving DecidableEq, Repr

/-- Modelled from the spec: `Segment` (imported by the source from
`ofrak_patch_maker.toolchain.model`, not under src/): an immutable value
describing one contiguous memory region — name, address, size and access
attributes; `size >= 0` is encoded by `Nat`. -/
structure Segment where
  segment_name : String
  vm_address : Nat
  length : Nat
  attributes : String
deriving DecidableEq, Repr

/-- Embedding of `AssembledObject` (model.py lines 28-50): the result of
any compile or assemble step. -/
structure AssembledObject where
  path : String
  file_format : BinFileType
  segment_map : PyDict Segment
  strong_symbols : PyDict (Int × LinkableSymbolType)
  unresolved_symbols : PyDict (Int × LinkableSymbolType)
  bss_size_required : Option Int
deriving DecidableEq

/-- Embedding of `LinkedExecutable` (model.py lines 53-69): the result
of any link step. -/
structure LinkedExecutable where
  path : String
  file_format : BinFileType
  segments : List Segment
  symbols : PyDict (Int × LinkableSymbolType)
  relocatable : Bool
deriving DecidableEq

/-- Embedding of `PatchRegionConfig` (model.py lines 72-89): the
caller-supplied description of a set of code and data patches. -/
structure PatchRegionConfig where
  patch_name : String
  segments : PyDict (List Segment)
deriving DecidableEq

/-- Embedding of `FEM` (model.py lines 92-107): Final Executable and
Metadata. -/
structure FEM where
  name : String
  executable : LinkedExecutable
deriving DecidableEq

/-- Embedding of `BOM` (model.py lines 110-136): Batched Objects and
Metadata.  `unresolved_symbols` is a Python `Set[str]`, embedded as a
`Finset String`; `segment_alignment` is a Python `int`, embedded as
`Int`. -/
structure BOM where
  name : String
  object_map : PyDict AssembledObject
  unresolved_symbols : Finset String
  bss_size_required : Option Int
  entry_point_symbol : Option String
  segment_alignment : Int
deriving DecidableEq

/-- Embedding of `SourceFileType` (model.py lines 139-142). -/
inductive SourceFileType where
  | DEFAULT
  | C
  | ASM
deriving DecidableEq, Repr

/-- The numeric value of each `SourceFileType` member. -/
def SourceFileType.value : SourceFileType → Nat
  | .DEFAULT => 0
  | .C => 1
  | .ASM => 2

/-- The deprecation warning text emitted by
`AssembledObject.__post_init__` (model.py line 50). -/
def assembledObjectDeprecationWarning : String :=
  "AssembledObject.bss_size_required is deprecated"

/-- The deprecation warning text emitted by `BOM.__post_init__`
(model.py line 136). -/
def bomDeprecationWarning : String :=
  "BOM.bss_size_required is deprecated"

/-- Embedding of `AssembledObject(...)` construction: the generated
`__init__` of the frozen dataclass assigns every field, then
`__post_init__` (model.py lines 48-50) warns when `bss_size_required`
is not `None`.  Nothing in the body can raise, so the result is always
`Except.ok` of the instance together with the warnings emitted. -/
def AssembledObject.construct (path : String) (file_format : BinFileType)
    (segment_map : PyDict Segment)
    (strong_symbols unresolved_symbols : PyDict (Int × LinkableSymbolType))
    (bss_size_required : Option Int) :
    Except String (AssembledObject × List String) :=
  let obj : AssembledObject :=
    ⟨path, file_format, segment_map, strong_symbols, unresolved_symbols, bss_size_required⟩
  match bss_size_required with
  | some _ => .ok (obj, [assembledObjectDeprecationWarning])
  | none => .ok (obj, [])

/-- Construction of `AssembledObject` without passing
`bss_size_required`, which defaults to `None` (model.py line 46). -/
def AssembledObject.constructDefault (path : String) (file_format : BinFileType)
    (segment_map : PyDict Segment)
    (strong_symbols unresolved_symbols : PyDict (Int × LinkableSymbolType)) :
    Except String (AssembledObject × List String) :=
  AssembledObject.construct path file_format segment_map strong_symbols
    unresolved_symbols none

/-- Embedding of `BOM(...)` construction: the generated `__init__`
assigns every field, then `__post_init__` (model.py lines 134-136)
warns when `bss_size_required` is not `None`.  All six fields of `BOM`
have no default, so every one must be passed explicitly. -/
def BOM.construct (name : String) (object_map : PyDict AssembledObject)
    (unresolved_symbols : Finset String) (bss_size_required : Option Int)
    (entry_point_symbol : Option String) (segment_alignment : Int) :
    Except String (BOM × List String) :=
  let bom : BOM :=
    ⟨name, object_map, unresolved_symbols, bss_size_required,
      entry_point_symbol, segment_alignment⟩
  match bss_size_required with
  | some _ => .ok (bom, [bomDeprecationWarning])
  | none => .ok (bom, [])

/-- Embedding of `LinkedExecutable(...)` construction: no
`__post_init__`, so construction assigns the fields and cannot raise. -/
def LinkedExecutable.construct (path : String) (file_format : BinFileType)
    (segments : List Segment) (symbols : PyDict (Int × LinkableSymbolType))
    (relocatable : Bool) : Except String LinkedExecutable :=
  .ok ⟨path, file_format, segments, symbols, relocatable⟩

/-- Embedding of `PatchRegionConfig(...)` construction: no
`__post_init__`, so construction assigns the fields and cannot raise. -/
def PatchRegionConfig.construct (patch_name : String)
    (segments : PyDict (List Segment)) : Except String PatchRegionConfig :=
  .ok ⟨patch_name, segments⟩

/-- Embedding of `FEM(...)` construction: no `__post_init__`, so
construction assigns the fields and cannot raise. -/
def FEM.construct (name : String) (executable : LinkedExecutable) :
    Except String FEM :=
  .ok ⟨name, executable⟩

/-- Modelled from the spec: a target memory region of the Region/Layout
Planner (§4.3, glossary): a caller-declared memory area with a name, a
base address and a length; the planner code itself is not under src/. -/
structure Region where
  region_name : String
  base : Nat
  size : Nat
deriving DecidableEq, Repr

/-- Modelled from the spec: one requested segment for a region — a name
and a requested size (§4.3; a zero-size segment is legal). -/
structure SegmentRequest where
  seg_name : String
  seg_size : Nat
deriving DecidableEq, Repr

/-- Modelled from the spec: `RegionOverflowError` (§7): planned segments
exceed declared region capacity; carries the region name and the name of
the first segment that does not fit.  The source model module itself
only defines the base class `PatchMakerException`. -/
structure RegionOverflowError where
  region : String
  segment : String
deriving DecidableEq, Repr

/-- Rounding an address up to the nearest multiple of `align`
(alignment `0` leaves the address unchanged). -/
def alignUp (a align : Nat) : Nat :=
  if align = 0 then a else (a + align - 1) / align * align

theorem le_alignUp (a align : Nat) : a ≤ alignUp a align := by
  unfold alignUp
  by_cases h : align = 0
  · simp [h]
  · rw [if_neg h]
    have hpos : 0 < align := Nat.pos_of_ne_zero h
    have hdm : align * ((a + align - 1) / align) + (a + align - 1) % align
        = a + align - 1 := Nat.div_add_mod _ _
    have hmod : (a + align - 1) % align < align := Nat.mod_lt _ hpos
    have hcomm : (a + align - 1) / align * align
        = align * ((a + align - 1) / align) := Nat.mul_comm _ _
    rw [hcomm]
    omega

theorem alignUp_dvd (a align : Nat) (h : align ≠ 0) : align ∣ alignUp a align := by
  unfold alignUp
  rw [if_neg h]
  exact ⟨(a + align - 1) / align, Nat.mul_comm _ _⟩

/-- Modelled from the spec: the per-region planning walk of the
Region/Layout Planner (§4.3), absent from src/: starting from the
cursor, each successive segment start is rounded up to the nearest
multiple of the alignment and the cursor advances by the segment's
size; if the cumulative extent would exceed the region's declared size
the walk fails with a `RegionOverflowError` naming the region and the
first segment that does not fit. -/
def planWalk (r : Region) (align : Nat) :
    List SegmentRequest → Nat → Except RegionOverflowError (List (String × Nat))
  | [], _ => .ok []
  | s :: rest, cursor =>
    let start := alignUp cursor align
    if start + s.seg_size ≤ r.base + r.size then
      (planWalk r align rest (start + s.seg_size)).map
        (fun placed => (s.seg_name, start) :: placed)
    else
      .error ⟨r.region_name, s.seg_name⟩

/-- Modelled from the spec: planning one region of a region config
(§4.3): walk the region's requested segments in declared order starting
from the region's base address. -/
def planRegion (r : Region) (align : Nat) (segs : List SegmentRequest) :
    Except RegionOverflowError (List (String × Nat)) :=
  planWalk r align segs r.base

/-- The total requested size of a list of segment requests. -/
def totalRequestedSize (segs : List SegmentRequest) : Nat :=
  (segs.map SegmentRequest.seg_size).sum

theorem planWalk_ok_bound (r : Region) (align : Nat) :
    ∀ (segs : List SegmentRequest) (cursor : Nat)
      (placed : List (String × Nat)),
      segs ≠ [] → planWalk r align segs cursor = .ok placed →
      cursor + totalRequestedSize segs ≤ r.base + r.size := by
  intro segs
  induction segs with
  | nil => intro cursor placed hne; exact absurd rfl hne
  | cons s rest ih =>
    intro cursor placed _ hok
    have hstart : cursor ≤ alignUp cursor align := le_alignUp cursor align
    by_cases hfit : alignUp cursor align + s.seg_size ≤ r.base + r.size
    · rw [planWalk, if_pos hfit] at hok
      cases hrec : planWalk r align rest (alignUp cursor align + s.seg_size) with
      | error e => rw [hrec] at hok; exact absurd hok (by simp [Except.map])
      | ok placedRest =>
        cases rest with
        | nil =>
          simp [totalRequestedSize]
          omega
        | cons s2 rest2 =>
          have hbound := ih (alignUp cursor align + s.seg_size) placedRest
            (by simp) hrec
          simp only [totalRequestedSize, List.map_cons, List.sum_cons] at hbound ⊢
          omega
    · rw [planWalk, if_neg hfit] at hok
      exact absurd hok (by simp)

theorem planWalk_error_mem (r : Region) (align : Nat) :
    ∀ (segs : List SegmentRequest) (cursor : Nat) (e : RegionOverflowError),
      planWalk r align segs cursor = .error e →
      e.region = r.region_name ∧ e.segment ∈ segs.map SegmentRequest.seg_name := by
  intro segs
  induction segs with
  | nil => intro cursor e h; exact absurd h (by simp [planWalk])
  | cons s rest ih =>
    intro cursor e h
    by_cases hfit : alignUp cursor align + s.seg_size ≤ r.base + r.size
    · rw [planWalk, if_pos hfit] at h
      cases hrec : planWalk r align rest (alignUp cursor align + s.seg_size) with
      | error e2 =>
        rw [hrec] at h
        simp only [Except.map] at h
        cases h
        have h3 := ih _ _ hrec
        refine ⟨h3.1, ?_⟩
        rw [List.map_cons]
        exact List.mem_cons_of_mem _ h3.2
      | ok placedRest => rw [hrec] at h; exact absurd h (by simp [Except.map])
    · rw [planWalk, if_neg hfit] at h
      cases h
      simp

/-- The union, across a list of assembled objects, of the names of
their unresolved symbols. -/
def objsUnresolvedNames (objs : List AssembledObject) : Finset String :=
  objs.foldl (fun acc o => acc ∪ o.unresolved_symbols.keysFinset) ∅

/-- The union, across a list of assembled objects, of the names of
their strong symbols. -/
def objsStrongNames (objs : List AssembledObject) : Finset String :=
  objs.foldl (fun acc o => acc ∪ o.strong_symbols.keysFinset) ∅

/-- Whether two distinct objects in the list define the same strong
symbol name. -/
def hasDuplicateStrong : List AssembledObject → Bool
  | [] => false
  | o :: rest =>
    (rest.any fun p => o.strong_symbols.keys.any fun k => p.strong_symbols.hasKey k)
      || hasDuplicateStrong rest

/-- Modelled from the spec: the BOM Builder (§4.2), absent from src/:
collects the per-source assembled objects into `object_map`, computes
`unresolved_symbols` as the union of all objects' unresolved-symbol
names minus the names found among any object's strong symbols, and
fails with a `PatchMakerException` message if the object map would be
empty or two objects define the same strong symbol name.  The
alignment is the caller-specified override of §4.2. -/
def buildBOM (name : String) (sources : List (String × AssembledObject))
    (alignment : Int) (entry : Option String) : Except String BOM :=
  let object_map := PyDict.ofList sources
  if object_map.entries = [] then
    .error "PatchMakerException: empty object_map"
  else if hasDuplicateStrong object_map.values then
    .error "PatchMakerException: duplicate strong symbol definition"
  else
    .ok ⟨name, object_map,
      objsUnresolvedNames object_map.values \ objsStrongNames object_map.values,
      none, entry, alignment⟩

/-- Modelled from the spec: the diagnostic information the Toolchain
Abstraction extracts from the external linker run (§4.1, §6): exit
code, unresolved-symbol names from the diagnostic output, and the
parsed segment and symbol listings of the produced artifact. -/
structure LinkerReport where
  exit_code : Int
  unresolved : List String
  out_segments : List Segment
  out_symbols : PyDict (Int × LinkableSymbolType)
deriving DecidableEq

/-- Modelled from the spec: `LinkError` (§4.1, §7): the external linker
reported unresolved symbols or failed; carries the offending symbol
names when extractable. -/
structure LinkError where
  message : String
  offending_symbols : List String
deriving DecidableEq, Repr

/-- Modelled from the spec: the `link` step of the Toolchain
Abstraction (§4.1), absent from src/: fails with a `LinkError` carrying
the offending symbol names if the external linker reports unresolved
symbols or exits non-zero; otherwise produces a `LinkedExecutable`
from the parsed output. -/
def toolchainLink (out_path : String) (file_format : BinFileType)
    (relocatable : Bool) (report : LinkerReport) :
    Except LinkError LinkedExecutable :=
  if report.unresolved ≠ [] then
    .error ⟨"unresolved symbols", report.unresolved⟩
  else if report.exit_code ≠ 0 then
    .error ⟨"linker exited non-zero", []⟩
  else
    .ok ⟨out_path, file_format, report.out_segments, report.out_symbols, relocatable⟩

/-- The options of the `@dataclass(...)` decorator that generate the
special methods: `frozen` as written in the source, `eq` which defaults
to `True` in Python when not written. -/
structure DataclassOpts where
  frozen : Bool
  eq : Bool
deriving DecidableEq, Repr

/-- Decorator options of `AssembledObject` (model.py line 28:
`@dataclass(frozen=True)`; `eq` defaulted). -/
def AssembledObject.opts : DataclassOpts := ⟨true, true⟩

/-- Decorator options of `LinkedExecutable` (model.py line 53). -/
def LinkedExecutable.opts : DataclassOpts := ⟨true, true⟩

/-- Decorator options of `PatchRegionConfig` (model.py line 72). -/
def PatchRegionConfig.opts : DataclassOpts := ⟨true, true⟩

/-- Decorator options of `FEM` (model.py line 92). -/
def FEM.opts : DataclassOpts := ⟨true, true⟩

/-- Decorator options of `BOM` (model.py line 110). -/
def BOM.opts : DataclassOpts := ⟨true, true⟩

/-- Embedding of Python attribute assignment `self.field = value` on a
dataclass instance: the `__setattr__` generated for a frozen dataclass
raises `FrozenInstanceError`; on a non-frozen dataclass the update is
applied. -/
def dataclassSetattr {α : Type} (o : DataclassOpts) (self : α) (upd : α → α) :
    Except String α :=
  if o.frozen then .error "FrozenInstanceError" else .ok (upd self)

/-- Python's dataclass rule for `__hash__`: with `eq=True` and
`frozen=True` (and no `unsafe_hash`), a content-based `__hash__` is
generated from the tuple of fields. -/
def dataclassHashGenerated (o : DataclassOpts) : Bool :=
  o.eq && o.frozen

/-- The tuple of fields of an `AssembledObject`, as compared by the
generated `__eq__` and hashed by the generated `__hash__`. -/
def AssembledObject.fieldsTuple (o : AssembledObject) :
    String × BinFileType × PyDict Segment × PyDict (Int × LinkableSymbolType) ×
      PyDict (Int × LinkableSymbolType) × Option Int :=
  (o.path, o.file_format, o.segment_map, o.strong_symbols,
    o.unresolved_symbols, o.bss_size_required)

/-- The tuple of fields of a `LinkedExecutable`. -/
def LinkedExecutable.fieldsTuple (e : LinkedExecutable) :
    String × BinFileType × List Segment ×
      PyDict (Int × LinkableSymbolType) × Bool :=
  (e.path, e.file_format, e.segments, e.symbols, e.relocatable)

/-- The tuple of fields of a `PatchRegionConfig`. -/
def PatchRegionConfig.fieldsTuple (c : PatchRegionConfig) :
    String × PyDict (List Segment) :=
  (c.patch_name, c.segments)

/-- The tuple of fields of a `FEM`. -/
def FEM.fieldsTuple (f : FEM) : String × LinkedExecutable :=
  (f.name, f.executable)

/-- The tuple of fields of a `BOM`. -/
def BOM.fieldsTuple (b : BOM) :
    String × PyDict AssembledObject × Finset String × Option Int ×
      Option String × Int :=
  (b.name, b.object_map, b.unresolved_symbols, b.bss_size_required,
    b.entry_point_symbol, b.segment_alignment)

/-- Module-level visibility facts about a class in model.py: whether
its constructor is callable by client code (Python dataclasses generate
a public `__init__`, and none of these class names is underscore
prefixed) and whether its docstring restricts construction to
PatchMaker by convention. -/
structure PyClassInfo where
  class_name : String
  constructor_public : Bool
  doc_restricts_construction : Bool
deriving DecidableEq, Repr

/-- `BOM` visibility (model.py lines 110-136; docstring lines 117-118
say instances should never be declared outside of PatchMaker). -/
def BOM.info : PyClassInfo := ⟨"BOM", true, true⟩

/-- `FEM` visibility (model.py lines 92-107; docstring lines 99-100
say instances should never be declared outside of PatchMaker). -/
def FEM.info : PyClassInfo := ⟨"FEM", true, true⟩

/-- `AssembledObject` visibility (model.py lines 28-50; no construction
restriction in its docstring). -/
def AssembledObject.info : PyClassInfo := ⟨"AssembledObject", true, false⟩

/-- Which fields of `AssembledObject` carry a default value in the
dataclass declaration (model.py line 46: `bss_size_required:
Optional[int] = None` is the only one). -/
def AssembledObject.fieldHasDefault : String → Bool
  | "bss_size_required" => true
  | _ => false

/-- Which fields of `BOM` carry a default value in the dataclass
declaration (model.py lines 127-132: none do; `bss_size_required` on
line 130 has no `= None`). -/
def BOM.fieldHasDefault : String → Bool :=
  fun _ => false

/-- An assembled object defining strong symbol "f" and using
unresolved symbol "g". -/
def exObj1 : AssembledObject :=
  ⟨"a.o", .elf, PyDict.empty, PyDict.ofList [("f", (0, .func))],
    PyDict.ofList [("g", (0, .undef))], none⟩

/-- An assembled object defining strong symbol "g" and using
unresolved symbol "h". -/
def exObj2 : AssembledObject :=
  ⟨"b.o", .elf, PyDict.empty, PyDict.ofList [("g", (4, .func))],
    PyDict.ofList [("h", (0, .undef))], none⟩

/-- The BOM the builder produces from `exObj1` and `exObj2`: "g" is
resolved cross-object by `exObj2`, leaving only "h" unresolved. -/
def exBOM : BOM :=
  ⟨"bom", PyDict.ofList [("a.c", exObj1), ("b.c", exObj2)],
    objsUnresolvedNames [exObj1, exObj2] \ objsStrongNames [exObj1, exObj2],
    none, none, 4⟩

/-- An assembled object carrying the symbol name "x" in both its
strong and its unresolved symbol maps. -/
def overlapObj : AssembledObject :=
  ⟨"dup.o", .elf, PyDict.empty, PyDict.ofList [("x", (0, .func))],
    PyDict.ofList [("x", (0, .undef))], none⟩

/-- A linker report with one unresolved symbol "foo". -/
def linkReportBad : LinkerReport := ⟨0, ["foo"], [], PyDict.empty⟩

/-- A clean linker report: zero exit, no unresolved symbols. -/
def linkReportGood : LinkerReport := ⟨0, [], [], PyDict.empty⟩

/-- The executable produced from `linkReportGood`. -/
def exeGood : LinkedExecutable := ⟨"out.elf", .elf, [], PyDict.empty, false⟩

/-- C1: for every BOM value produced by the BOM Builder, its
`unresolved_symbols` set equals the union, across the AssembledObjects
in `object_map`, of their unresolved-symbol names, minus every name
that appears among any object's strong symbols in the same BOM. -/
theorem C1_bom_unresolved_invariant (name : String)
    (sources : List (String × AssembledObject)) (alignment : Int)
    (entry : Option String) (bom : BOM)
    (h : buildBOM name sources alignment entry = .ok bom) :
    bom.unresolved_symbols =
      objsUnresolvedNames bom.object_map.values \
        objsStrongNames bom.object_map.values := by
  simp only [buildBOM] at h
  split at h
  · exact absurd h (by simp)
  · split at h
    · exact absurd h (by simp)
    · cases h
      rfl

theorem C1_witness :
    buildBOM "bom" [("a.c", exObj1), ("b.c", exObj2)] 4 none = .ok exBOM ∧
    exBOM.unresolved_symbols =
      objsUnresolvedNames exBOM.object_map.values \
        objsStrongNames exBOM.object_map.values :=
  ⟨by decide,
    C1_bom_unresolved_invariant "bom" [("a.c", exObj1), ("b.c", exObj2)] 4
      none exBOM (by decide)⟩

/-- C2: for every region plan request in which the total requested
segment size exceeds the region's declared size, planning fails with a
`RegionOverflowError` that carries the region's name and the name of a
requested segment (by construction of the walk, the first one that
does not fit). -/
theorem C2_region_overflow (r : Region) (align : Nat)
    (segs : List SegmentRequest)
    (h : r.size < totalRequestedSize segs) :
    ∃ e : RegionOverflowError, planRegion r align segs = .error e ∧
      e.region = r.region_name ∧
      e.segment ∈ segs.map SegmentRequest.seg_name := by
  unfold planRegion
  cases hres : planWalk r align segs r.base with
  | ok placed =>
    have hne : segs ≠ [] := by
      intro hnil
      subst hnil
      simp [totalRequestedSize] at h
    have hb := planWalk_ok_bound r align segs r.base placed hne hres
    exact absurd hb (by omega)
  | error e =>
    have hm := planWalk_error_mem r align segs r.base e hres
    exact ⟨e, rfl, hm.1, hm.2⟩

theorem C2_witness :
    (⟨"PATCH_A", 0x1000, 0x100⟩ : Region).size <
      totalRequestedSize [⟨".text", 0x90⟩, ⟨".data", 0x90⟩] ∧
    (∃ e : RegionOverflowError,
      planRegion ⟨"PATCH_A", 0x1000, 0x100⟩ 4 [⟨".text", 0x90⟩, ⟨".data", 0x90⟩]
        = .error e ∧
      e.region = (⟨"PATCH_A", 0x1000, 0x100⟩ : Region).region_name ∧
      e.segment ∈ List.map SegmentRequest.seg_name
        [⟨".text", 0x90⟩, ⟨".data", 0x90⟩]) :=
  ⟨by decide,
    C2_region_overflow ⟨"PATCH_A", 0x1000, 0x100⟩ 4
      [⟨".text", 0x90⟩, ⟨".data", 0x90⟩] (by decide)⟩

/-- C3: for a region with base 0x1000, length 0x100 and alignment 4,
planning segments of sizes 10 and 6 assigns start addresses 0x1000 and
0x100C (0x100A rounded up to the next multiple of 4), both within the
region's bounds. -/
theorem C3_alignment_scenario :
    planRegion ⟨"PATCH_A", 0x1000, 0x100⟩ 4 [⟨".text", 10⟩, ⟨".data", 6⟩]
      = .ok [(".text", 0x1000), (".data", 0x100C)] ∧
    (⟨"PATCH_A", 0x1000, 0x100⟩ : Region).base ≤ 0x1000 ∧
    0x1000 + 10 ≤ 0x1000 + 0x100 ∧
    0x100C + 6 ≤ 0x1000 + 0x100 := by
  decide

/-- C4: every data-model entity is declared with
`@dataclass(frozen=True)` (and `eq` defaulted to true), so attribute
assignment raises `FrozenInstanceError`, instances with equal field
contents are equal — hence any hash of them is equal — and a
content-based `__hash__` is generated. -/
theorem C4_frozen_value_objects :
    (AssembledObject.opts.frozen = true ∧ LinkedExecutable.opts.frozen = true ∧
      PatchRegionConfig.opts.frozen = true ∧ FEM.opts.frozen = true ∧
      BOM.opts.frozen = true) ∧
    (∀ (x : AssembledObject) (upd : AssembledObject → AssembledObject),
      dataclassSetattr AssembledObject.opts x upd = .error "FrozenInstanceError") ∧
    (∀ (x : LinkedExecutable) (upd : LinkedExecutable → LinkedExecutable),
      dataclassSetattr LinkedExecutable.opts x upd = .error "FrozenInstanceError") ∧
    (∀ (x : PatchRegionConfig) (upd : PatchRegionConfig → PatchRegionConfig),
      dataclassSetattr PatchRegionConfig.opts x upd = .error "FrozenInstanceError") ∧
    (∀ (x : FEM) (upd : FEM → FEM),
      dataclassSetattr FEM.opts x upd = .error "FrozenInstanceError") ∧
    (∀ (x : BOM) (upd : BOM → BOM),
      dataclassSetattr BOM.opts x upd = .error "FrozenInstanceError") ∧
    (∀ a b : AssembledObject, a.fieldsTuple = b.fieldsTuple → a = b) ∧
    (∀ a b : LinkedExecutable, a.fieldsTuple = b.fieldsTuple → a = b) ∧
    (∀ a b : PatchRegionConfig, a.fieldsTuple = b.fieldsTuple → a = b) ∧
    (∀ a b : FEM, a.fieldsTuple = b.fieldsTuple → a = b) ∧
    (∀ a b : BOM, a.fieldsTuple = b.fieldsTuple → a = b) ∧
    (dataclassHashGenerated AssembledObject.opts = true ∧
      dataclassHashGenerated LinkedExecutable.opts = true ∧
      dataclassHashGenerated PatchRegionConfig.opts = true ∧
      dataclassHashGenerated FEM.opts = true ∧
      dataclassHashGenerated BOM.opts = true) := by
  refine ⟨⟨rfl, rfl, rfl, rfl, rfl⟩, fun x upd => rfl, fun x upd => rfl,
    fun x upd => rfl, fun x upd => rfl, fun x upd => rfl,
    ?_, ?_, ?_, ?_, ?_, ⟨rfl, rfl, rfl, rfl, rfl⟩⟩
  · intro a b h
    cases a
    cases b
    simpa [AssembledObject.fieldsTuple, AssembledObject.mk.injEq,
      Prod.mk.injEq] using h
  · intro a b h
    cases a
    cases b
    simpa [LinkedExecutable.fieldsTuple, LinkedExecutable.mk.injEq,
      Prod.mk.injEq] using h
  · intro a b h
    cases a
    cases b
    simpa [PatchRegionConfig.fieldsTuple, PatchRegionConfig.mk.injEq,
      Prod.mk.injEq] using h
  · intro a b h
    cases a
    cases b
    simpa [FEM.fieldsTuple, FEM.mk.injEq, Prod.mk.injEq] using h
  · intro a b h
    cases a
    cases b
    simpa [BOM.fieldsTuple, BOM.mk.injEq, Prod.mk.injEq] using h

theorem C4_witness :
    exObj1.fieldsTuple = exObj1.fieldsTuple ∧ exObj1 = exObj1 :=
  ⟨rfl, C4_frozen_value_objects.2.2.2.2.2.2.1 exObj1 exObj1 rfl⟩

/-- C5: constructing an AssembledObject or a BOM with a non-None
`bss_size_required` succeeds, emitting exactly the non-fatal
deprecation warning; construction never raises because of this
field. -/
theorem C5_deprecation_warning (n : Int) (path : String) (fmt : BinFileType)
    (sm : PyDict Segment) (ss us : PyDict (Int × LinkableSymbolType))
    (name : String) (om : PyDict AssembledObject) (un : Finset String)
    (entry : Option String) (align : Int) :
    AssembledObject.construct path fmt sm ss us (some n) =
      .ok (⟨path, fmt, sm, ss, us, some n⟩, [assembledObjectDeprecationWarning]) ∧
    BOM.construct name om un (some n) entry align =
      .ok (⟨name, om, un, some n, entry, align⟩, [bomDeprecationWarning]) :=
  ⟨rfl, rfl⟩

/-- C6 counterexample: an AssembledObject whose symbol name "x" occurs
in both `strong_symbols` and `unresolved_symbols` is constructed
without any error — the code enforces no disjointness, refuting the
claim for this value. -/
theorem C6_counterexample :
    AssembledObject.construct "dup.o" .elf PyDict.empty
        (PyDict.ofList [("x", (0, .func))]) (PyDict.ofList [("x", (0, .undef))])
        none
      = .ok (overlapObj, []) ∧
    overlapObj.strong_symbols.hasKey "x" = true ∧
    overlapObj.unresolved_symbols.hasKey "x" = true := by
  decide

/-- C6 amended: every segment name is unique within `segment_map`
(a property of the mapping type), but a symbol name may appear in both
`strong_symbols` and `unresolved_symbols`: disjointness is not enforced
at construction. -/
theorem C6_amended_uniqueness :
    (∀ o : AssembledObject, o.segment_map.keys.Nodup) ∧
    overlapObj.strong_symbols.hasKey "x" = true ∧
    overlapObj.unresolved_symbols.hasKey "x" = true ∧
    (AssembledObject.construct overlapObj.path overlapObj.file_format
        overlapObj.segment_map overlapObj.strong_symbols
        overlapObj.unresolved_symbols overlapObj.bss_size_required).isOk
      = true := by
  exact ⟨fun o => o.segment_map.keys_nodup, by decide, by decide, by decide⟩

/-- C7: a link that succeeds produces a LinkedExecutable whose symbols
are exactly the resolved symbols of the linker's output, with no
unresolved entries remaining; a link that would leave unresolved
entries fails with a LinkError naming them instead of producing a
LinkedExecutable. -/
theorem C7_link_no_unresolved (out_path : String) (fmt : BinFileType)
    (reloc : Bool) (report : LinkerReport) :
    (∀ exe, toolchainLink out_path fmt reloc report = .ok exe →
        report.unresolved = [] ∧ exe.symbols = report.out_symbols ∧
        exe.segments = report.out_segments) ∧
    (report.unresolved ≠ [] →
        toolchainLink out_path fmt reloc report =
          .error ⟨"unresolved symbols", report.unresolved⟩) := by
  constructor
  · intro exe h
    unfold toolchainLink at h
    by_cases h1 : report.unresolved ≠ []
    · rw [if_pos h1] at h
      exact absurd h (by simp)
    · rw [if_neg h1] at h
      by_cases h2 : report.exit_code ≠ 0
      · rw [if_pos h2] at h
        exact absurd h (by simp)
      · rw [if_neg h2] at h
        cases h
        exact ⟨not_not.mp h1, rfl, rfl⟩
  · intro hne
    unfold toolchainLink
    rw [if_pos hne]

theorem C7_witness :
    (toolchainLink "patch.elf" BinFileType.elf false linkReportBad =
      .error ⟨"unresolved symbols", ["foo"]⟩) ∧
    (([] : List String) = [] ∧ exeGood.symbols = linkReportGood.out_symbols ∧
      exeGood.segments = linkReportGood.out_segments) :=
  ⟨(C7_link_no_unresolved "patch.elf" BinFileType.elf false linkReportBad).2
      (by decide),
    (C7_link_no_unresolved "out.elf" BinFileType.elf false linkReportGood).1
      exeGood (by decide)⟩

/-- C8 counterexample: the constructors of BOM and FEM are public (the
dataclass decorator generates a public init and neither class name is
underscore-prefixed), refuting the claim that they are non-public
outside the owning module. -/
theorem C8_counterexample :
    ¬(BOM.info.constructor_public = false ∧
      FEM.info.constructor_public = false) := by
  decide

/-- C8 amended: construction outside PatchMaker is restricted only by
docstring convention: the constructors of BOM and FEM are public and
client code can construct instances directly, while the docstrings of
both classes state that instances should never be declared outside of
PatchMaker. -/
theorem C8_amended_convention_only :
    BOM.info.constructor_public = true ∧
    FEM.info.constructor_public = true ∧
    BOM.info.doc_restricts_construction = true ∧
    FEM.info.doc_restricts_construction = true ∧
    (BOM.construct "client" PyDict.empty ∅ none none 4).isOk = true ∧
    (FEM.construct "client" ⟨"x.elf", .elf, [], PyDict.empty, false⟩).isOk
      = true := by
  decide

/-- C9: AssembledObject's deprecated `bss_size_required` defaults to
None — constructing without supplying it yields None and emits no
warning — while BOM declares no default for the field, so it must be
passed explicitly. -/
theorem C9_default_field (path : String) (fmt : BinFileType)
    (sm : PyDict Segment) (ss us : PyDict (Int × LinkableSymbolType)) :
    AssembledObject.constructDefault path fmt sm ss us =
      .ok (⟨path, fmt, sm, ss, us, none⟩, []) ∧
    AssembledObject.fieldHasDefault "bss_size_required" = true ∧
    BOM.fieldHasDefault "bss_size_required" = false :=
  ⟨rfl, rfl, rfl⟩

/-- C10: construction of every data-model entity is total apart from
the deprecation warning: for all field values of the declared types —
including a BOM with zero or negative segment_alignment, an arbitrary
unresolved_symbols set, and an AssembledObject whose strong and
unresolved symbol maps share names — construction succeeds and never
raises. -/
theorem C10_construction_total :
    (∀ (path : String) (fmt : BinFileType) (sm : PyDict Segment)
        (ss us : PyDict (Int × LinkableSymbolType)) (bss : Option Int),
      ∃ o w, AssembledObject.construct path fmt sm ss us bss = .ok (o, w)) ∧
    (∀ (name : String) (om : PyDict AssembledObject) (un : Finset String)
        (bss : Option Int) (entry : Option String) (align : Int),
      ∃ b w, BOM.construct name om un bss entry align = .ok (b, w)) ∧
    (∀ (pn : String) (segs : PyDict (List Segment)),
      ∃ c, PatchRegionConfig.construct pn segs = .ok c) ∧
    (∀ (path : String) (fmt : BinFileType) (segs : List Segment)
        (syms : PyDict (Int × LinkableSymbolType)) (reloc : Bool),
      ∃ e, LinkedExecutable.construct path fmt segs syms reloc = .ok e) ∧
    (∀ (name : String) (exe : LinkedExecutable),
      ∃ f, FEM.construct name exe = .ok f) := by
  refine ⟨?_, ?_, ?_, ?_, ?_⟩
  · intro path fmt sm ss us bss
    cases bss with
    | some n => exact ⟨_, _, rfl⟩
    | none => exact ⟨_, _, rfl⟩
  · intro name om un bss entry align
    cases bss with
    | some n => exact ⟨_, _, rfl⟩
    | none => exact ⟨_, _, rfl⟩
  · intro pn segs
    exact ⟨_, rfl⟩
  · intro path fmt segs syms reloc
    exact ⟨_, rfl⟩
  · intro name exe
    exact ⟨_, rfl⟩
